import Mathlib

/-!
Verification development for the Automata Controls Nexus BMS InfluxDB3 plugins.

This file gives a shallow embedding, in Lean 4, of the two plugins that the
claims concern:

* `plugins/alerts/automata_alert_engine.py` — threshold evaluation over metric
  rows, a cooldown gate, multi-channel notification dispatch, and the
  `process_writes` entry point;
* `plugins/analytics/predictive_maintenance_plugin.py` — the equipment health
  score, its status bucketing, and its `process_writes` entry point.

Modelling conventions:

* Python dict rows become association lists `List (String × Value)` where
  `Value` is a numeric-or-string scalar.  `dget` is `dict.get` (first match).
* Python floats are modelled as exact rationals `ℚ`.  Every constant in the
  source (thresholds, weights 0.25/0.30/0.20, band factors 0.8/0.9) is exactly
  representable in binary floating point, so the arithmetic the claims exercise
  is exact and `ℚ` is a faithful model of it.
* Fallible code runs in `Except String`; a `try/except` block that logs and
  returns `None`/a default becomes a total wrapper mapping `Except.error` to
  that default.  Error payload strings name the Python exception class.
* Network and clock effects are parameters: HTTP outcomes come from an oracle
  (`ResendOutcome`/`WebhookOutcome`), `time.time()` is a `ℚ` argument `now`,
  `datetime.now().isoformat()` a `String` argument `nowIso`.
* `str.lower()` is modelled ASCII-wise by `pyToLower` and `float(s)` by a plain
  decimal parser; the claims never depend on exotic string inputs, and both
  branches (parse ok / `ValueError`) are covered by the theorems.
* `round(x, 2)` is modelled by `round2` (floor of `x*100 + 1/2`, over 100).
  Python rounds half to even, which differs only at exact half-cent ties; no
  reachable score in this code sits on such a tie.
-/

/-- A Python scalar value as it appears in a metrics row: a float/int or a
string. -/
inductive Value where
  | num (q : ℚ)
  | str (s : String)
deriving DecidableEq

/-- Python truthiness for a scalar: `0`, `0.0` and `""` are falsy. -/
def truthy : Value → Bool
  | Value.num q => decide (q ≠ 0)
  | Value.str s => decide (s ≠ "")

/-- Truthiness of a `dict.get` result: a missing key (Python `None`) is falsy. -/
def truthyOpt : Option Value → Bool
  | none => false
  | some v => truthy v

/-- Does `isinstance(v, (int, float))` hold? -/
def isNumber : Value → Bool
  | Value.num _ => true
  | Value.str _ => false

/-- A Python dict with string keys, as an association list (first match wins;
actual dicts have unique keys). -/
def Dict := List (String × Value)

/-- `d.get(k)` for an association list (generic in the value type). -/
def dget {α : Type} : List (String × α) → String → Option α
  | [], _ => none
  | (k0, v0) :: rest, k => if k0 = k then some v0 else dget rest k

/-- `d.get(k, default)`. -/
def dgetD {α : Type} (d : List (String × α)) (k : String) (default : α) : α :=
  (dget d k).getD default

/-- `str(v)` for use in f-strings and key building.  Numeric rendering via
`toString` on `ℚ` abstracts Python's float formatting; no claim compares such
text across representations. -/
def pyStr : Value → String
  | Value.num q => toString q
  | Value.str s => s

/-- `str(...)` of a `dict.get` result, rendering Python `None` as "None". -/
def pyStrOpt : Option Value → String
  | none => "None"
  | some v => pyStr v

/-- Using a value where Python calls a `str` method (`.lower()`): a non-string
raises `AttributeError`. -/
def asStringE : Value → Except String String
  | Value.str s => Except.ok s
  | Value.num _ => Except.error "AttributeError"

/-- `asStringE` lifted to a `dict.get` result (`None.lower()` also raises). -/
def valueAsStringE : Option Value → Except String String
  | some v => asStringE v
  | none => Except.error "AttributeError"

/-- ASCII lower-casing of one character (models Python `str.lower` on the ASCII
identifiers this code matches on). -/
def charLower (c : Char) : Char :=
  if 65 ≤ c.toNat ∧ c.toNat ≤ 90 then Char.ofNat (c.toNat + 32) else c

/-- `s.lower()`, ASCII-wise. -/
def pyToLower (s : String) : String := String.mk (s.data.map charLower)

/-- Is `needle` a prefix of the character list? -/
def charsPrefix : List Char → List Char → Bool
  | [], _ => true
  | _ :: _, [] => false
  | a :: as, b :: bs => a == b && charsPrefix as bs

/-- Is `needle` a contiguous sublist? -/
def charsContains (needle : List Char) : List Char → Bool
  | [] => charsPrefix needle []
  | c :: rest => charsPrefix needle (c :: rest) || charsContains needle rest

/-- Python `needle in hay` on strings. -/
def strContains (hay needle : String) : Bool := charsContains needle.toList hay.toList

/-- Digits-only parse of a character list to a natural number. -/
def parseNatDigits (cs : List Char) : Option ℕ :=
  match cs with
  | [] => none
  | _ :: _ =>
    if cs.all (fun c => c.isDigit) then
      some (cs.foldl (fun a c => a * 10 + (c.toNat - 48)) 0)
    else none

/-- Unsigned decimal literal (`"12"`, `"12.5"`). -/
def parseUnsignedChars (cs : List Char) : Option ℚ :=
  match cs.splitOn '.' with
  | [w] => (parseNatDigits w).map (fun n => (n : ℚ))
  | [w, f] =>
    match parseNatDigits w, parseNatDigits f with
    | some n, some m => some ((n : ℚ) + (m : ℚ) / (10 : ℚ) ^ f.length)
    | _, _ => none
  | _ => none

/-- Signed decimal literal. -/
def parsePyFloatChars : List Char → Option ℚ
  | '-' :: rest => (parseUnsignedChars rest).map Neg.neg
  | '+' :: rest => parseUnsignedChars rest
  | cs => parseUnsignedChars cs

/-- Python `float(v)`: identity on numbers, decimal parse on strings (a string
that does not parse raises `ValueError`).  Exponent/inf/nan float syntax is out
of scope; both the parse-ok and the raise branch are exercised by theorems. -/
def floatOf : Value → Except String ℚ
  | Value.num q => Except.ok q
  | Value.str s =>
    match parsePyFloatChars s.data with
    | some q => Except.ok q
    | none => Except.error "ValueError"

/-!  ## Alert engine: configuration and threshold tables -/

/-- `ALERT_CONFIG["retry_attempts"]`. -/
def RETRY_ATTEMPTS : ℕ := 3

/-- `ALERT_CONFIG["retry_backoff"]` (2.0 seconds). -/
def RETRY_BACKOFF : ℚ := 2

/-- `ALERT_CONFIG["alert_cooldown_minutes"]`. -/
def ALERT_COOLDOWN_MINUTES : ℚ := 5

/-- `EQUIPMENT_ALERT_THRESHOLDS` from the alert engine (float constants are
integral, written as integer rationals). -/
def EQUIPMENT_ALERT_THRESHOLDS : List (String × List (String × ℚ)) :=
  [ ("boiler",
      [("critical_temp", 200), ("high_temp", 180), ("low_efficiency", 70),
       ("high_pressure", 150)]),
    ("chiller",
      [("critical_temp", 55), ("high_temp", 50), ("low_efficiency", 65),
       ("low_refrigerant", 20)]),
    ("air-handler",
      [("critical_temp", 90), ("high_temp", 85), ("low_airflow", 500),
       ("filter_pressure_diff", 2)]),
    ("pump",
      [("critical_temp", 130), ("high_temp", 120), ("low_pressure", 10),
       ("high_vibration", 5)]),
    ("fancoil",
      [("critical_temp", 95), ("high_temp", 90), ("low_efficiency", 60)]) ]

/-- `EQUIPMENT_ALERT_THRESHOLDS.get(equipment_type, {})`. -/
def thresholdsFor (t : String) : List (String × ℚ) :=
  (dget EQUIPMENT_ALERT_THRESHOLDS t).getD []

/-- `determine_equipment_type` — the identical substring chain appears in both
the alert engine and the predictive maintenance plugin. -/
def determineEquipmentType (equipment_id : String) : String :=
  let l := pyToLower equipment_id
  if strContains l "boiler" then "boiler"
  else if strContains l "chiller" then "chiller"
  else if strContains l "pump" then "pump"
  else if strContains l "ahu" || strContains l "air" then "air-handler"
  else if strContains l "fancoil" || strContains l "fan" then "fancoil"
  else if strContains l "geo" then "geo"
  else "unknown"

/-- The temperature extraction chain
`row.get("temperature", row.get("Water_Temp", row.get("Supply_Temp", 0)))`. -/
def extractTemp (row : Dict) : Value :=
  dgetD row "temperature" (dgetD row "Water_Temp" (dgetD row "Supply_Temp" (Value.num 0)))

/-- An alert dict as built by the three evaluators.  Optional fields model keys
that only some evaluators set. -/
structure Alert where
  severity : String
  type_ : String
  message : String
  value : ℚ
  threshold : ℚ
  equipment_id : Option Value := none
  location_id : Option Value := none
  equipment_type : Option String := none
  health_status : Option Value := none
  hourly_cost : Option Value := none
  total_power_kw : Option Value := none
  timestamp : String := ""
  source : String := ""
deriving DecidableEq

/-- Sort key used by `alerts.sort(key=lambda x: 0 if x["severity"] == "CRITICAL" else 1)`. -/
def severityKey (a : Alert) : ℕ := if a.severity = "CRITICAL" then 0 else 1

/-- Insertion step for the severity sort (the list built by the source holds at
most one element, so tie order is never exercised). -/
def insertBySeverity (a : Alert) : List Alert → List Alert
  | [] => [a]
  | b :: bs => if severityKey a < severityKey b then a :: b :: bs else b :: insertBySeverity a bs

/-- `alerts.sort(...)` by severity. -/
def sortBySeverity : List Alert → List Alert
  | [] => []
  | a :: as => insertBySeverity a (sortBySeverity as)

/-- Body of `process_equipment_alerts` (the code inside its `try`).  The
threshold comparisons use `.get(key, 999)` while the alert construction indexes
`thresholds[key]` directly, which raises `KeyError` when the key is absent —
both are modelled. -/
def process_equipment_alertsExc (row : Dict) (nowIso : String) : Except String (Option Alert) :=
  if !(truthyOpt (dget row "equipmentId") && truthyOpt (dget row "location_id")) then
    Except.ok none
  else
    match valueAsStringE (dget row "equipmentId") with
    | Except.error e => Except.error e
    | Except.ok eid =>
      let equipment_type := determineEquipmentType eid
      let thresholds := thresholdsFor equipment_type
      let alertsE : Except String (List Alert) :=
        match extractTemp row with
        | Value.str _ => Except.ok []
        | Value.num q =>
          if truthy (Value.num q) then
            if q > dgetD thresholds "critical_temp" 999 then
              match dget thresholds "critical_temp" with
              | none => Except.error "KeyError"
              | some tc =>
                Except.ok [{ severity := "CRITICAL", type_ := "HIGH_TEMPERATURE",
                             message := "CRITICAL: " ++ equipment_type ++ " " ++ eid ++
                               " temperature " ++ toString q ++ "F exceeds critical threshold " ++
                               toString tc ++ "F",
                             value := q, threshold := tc }]
            else if q > dgetD thresholds "high_temp" 999 then
              match dget thresholds "high_temp" with
              | none => Except.error "KeyError"
              | some th =>
                Except.ok [{ severity := "WARNING", type_ := "HIGH_TEMPERATURE",
                             message := "WARNING: " ++ equipment_type ++ " " ++ eid ++
                               " temperature " ++ toString q ++ "F exceeds high threshold " ++
                               toString th ++ "F",
                             value := q, threshold := th }]
            else Except.ok []
          else Except.ok []
      match alertsE with
      | Except.error e => Except.error e
      | Except.ok alerts =>
        match sortBySeverity alerts with
        | [] => Except.ok none
        | a :: _ =>
          Except.ok (some { a with
            equipment_id := dget row "equipmentId",
            location_id := dget row "location_id",
            equipment_type := some equipment_type,
            timestamp := nowIso,
            source := "equipment_monitoring" })

/-- `process_equipment_alerts`: its `except` clause logs and returns `None`. -/
def process_equipment_alerts (row : Dict) (nowIso : String) : Option Alert :=
  match process_equipment_alertsExc row nowIso with
  | Except.ok r => r
  | Except.error _ => none

/-- Body of `process_health_alerts` (inside its `try`). -/
def process_health_alertsExc (row : Dict) (nowIso : String) : Except String (Option Alert) :=
  let equipment_id := dget row "equipment_id"
  let location_id := dget row "location_id"
  let health_status := dgetD row "health_status" (Value.str "unknown")
  if !(truthyOpt equipment_id) then Except.ok none
  else
    match dgetD row "health_score" (Value.num 100) with
    | Value.str _ => Except.ok none
    | Value.num hs =>
      if hs < 20 then
        Except.ok (some { severity := "CRITICAL", type_ := "EQUIPMENT_HEALTH_CRITICAL",
                          message := "CRITICAL: Equipment " ++ pyStrOpt equipment_id ++
                            " health score " ++ toString hs ++
                            "% - Immediate maintenance required",
                          value := hs, threshold := 20,
                          equipment_id := equipment_id, location_id := location_id,
                          health_status := some health_status, timestamp := nowIso,
                          source := "predictive_maintenance" })
      else if hs < 40 then
        Except.ok (some { severity := "WARNING", type_ := "EQUIPMENT_HEALTH_LOW",
                          message := "WARNING: Equipment " ++ pyStrOpt equipment_id ++
                            " health score " ++ toString hs ++
                            "% - Schedule maintenance soon",
                          value := hs, threshold := 40,
                          equipment_id := equipment_id, location_id := location_id,
                          health_status := some health_status, timestamp := nowIso,
                          source := "predictive_maintenance" })
      else Except.ok none

/-- `process_health_alerts` with its catch-all. -/
def process_health_alerts (row : Dict) (nowIso : String) : Option Alert :=
  match process_health_alertsExc row nowIso with
  | Except.ok r => r
  | Except.error _ => none

/-- The second check of `process_energy_alerts` (low efficiency). -/
def energyLowEffCheck (location_id : Option Value) (total_power_kw average_efficiency : Value)
    (nowIso : String) : Except String (Option Alert) :=
  match average_efficiency with
  | Value.str _ => Except.ok none
  | Value.num e =>
    if e < 70 then
      Except.ok (some { severity := "WARNING", type_ := "LOW_ENERGY_EFFICIENCY",
                        message := "WARNING: Location " ++ pyStrOpt location_id ++
                          " low energy efficiency " ++ toString e ++
                          "% - Optimization opportunities available",
                        value := e, threshold := 70,
                        location_id := location_id, total_power_kw := some total_power_kw,
                        timestamp := nowIso, source := "energy_optimization" })
    else Except.ok none

/-- Body of `process_energy_alerts` (inside its `try`).  The consumption branch
formats `hourly_cost` with `:.2f`, which raises `ValueError` on a string. -/
def process_energy_alertsExc (row : Dict) (nowIso : String) : Except String (Option Alert) :=
  let location_id := dget row "location_id"
  let total_power_kw := dgetD row "total_power_kw" (Value.num 0)
  let hourly_cost := dgetD row "hourly_cost" (Value.num 0)
  let average_efficiency := dgetD row "average_efficiency" (Value.num 100)
  if !(truthyOpt location_id) then Except.ok none
  else
    match total_power_kw with
    | Value.str _ => energyLowEffCheck location_id total_power_kw average_efficiency nowIso
    | Value.num t =>
      if t > 500 then
        match hourly_cost with
        | Value.str _ => Except.error "ValueError"
        | Value.num hc =>
          Except.ok (some { severity := "WARNING", type_ := "HIGH_ENERGY_CONSUMPTION",
                            message := "WARNING: Location " ++ pyStrOpt location_id ++
                              " high energy consumption " ++ toString t ++ " kW ($" ++
                              toString hc ++ "/hour)",
                            value := t, threshold := 500,
                            location_id := location_id, hourly_cost := some hourly_cost,
                            timestamp := nowIso, source := "energy_optimization" })
      else energyLowEffCheck location_id total_power_kw average_efficiency nowIso

/-- `process_energy_alerts` with its catch-all. -/
def process_energy_alerts (row : Dict) (nowIso : String) : Option Alert :=
  match process_energy_alertsExc row nowIso with
  | Except.ok r => r
  | Except.error _ => none

/-!  ## Alert engine: notification channels and dispatch -/

/-- Outcome of one BMS-API POST attempt: `ok` is HTTP 200 with a parsable JSON
body (the function returns `True`); `httpError` is a non-200 response (logged,
next attempt starts immediately); `exc` is any exception raised inside the
`try` (transport error, or `response.json()` failing), which sleeps before the
next attempt. -/
inductive ResendOutcome where
  | ok
  | httpError (code : ℕ)
  | exc
deriving DecidableEq

/-- Outcome of one chat-webhook POST: a status code, or a raised exception. -/
inductive WebhookOutcome where
  | status (code : ℕ)
  | exc
deriving DecidableEq

/-- Per-dispatch network behaviour, supplied as an oracle. -/
structure NetOracle where
  resend : ℕ → ResendOutcome
  slack : WebhookOutcome
  discord : WebhookOutcome

/-- Observable behaviour of one channel send: whether it returned `True`, how
many HTTP attempts it made, and the `time.sleep` durations it performed. -/
structure ChannelReport where
  sent : Bool
  httpAttempts : ℕ
  sleeps : List ℚ
deriving DecidableEq

/-- Report of a channel that made no HTTP attempt. -/
def emptyReport : ChannelReport := { sent := false, httpAttempts := 0, sleeps := [] }

/-- The retry loop of `send_resend_notification`: attempt index `i`, `n`
attempts remaining.  A 200 returns immediately; a non-200 logs and retries with
no sleep; an exception sleeps `retry_backoff ** attempt` seconds when another
attempt remains (`attempt < retry_attempts - 1`). -/
def resendTry (oracle : ℕ → ResendOutcome) : ℕ → ℕ → ChannelReport
  | _, 0 => emptyReport
  | i, n + 1 =>
    match oracle i with
    | ResendOutcome.ok => { sent := true, httpAttempts := 1, sleeps := [] }
    | ResendOutcome.httpError _ =>
      let r := resendTry oracle (i + 1) n
      { sent := r.sent, httpAttempts := r.httpAttempts + 1, sleeps := r.sleeps }
    | ResendOutcome.exc =>
      let r := resendTry oracle (i + 1) n
      { sent := r.sent, httpAttempts := r.httpAttempts + 1,
        sleeps := (if i < RETRY_ATTEMPTS - 1 then [RETRY_BACKOFF ^ i] else []) ++ r.sleeps }

/-- The caller-supplied `alert_config` mapping (each key optional). -/
structure AlertCfg where
  recipient_email : Option String := none
  slack_webhook_url : Option String := none
  discord_webhook_url : Option String := none
  alerts_db : Option String := none
  api_base_url : Option String := none

/-- The environment-variable fallbacks read via `os.getenv`. -/
structure EnvVars where
  DEFAULT_RECIPIENT : Option String := none
  SLACK_WEBHOOK_URL : Option String := none
  DISCORD_WEBHOOK_URL : Option String := none

/-- Python `a or b` on optional strings (an empty string is falsy). -/
def pyOrStr (a b : Option String) : Option String :=
  match a with
  | some s => if s = "" then b else some s
  | none => b

/-- Truthiness of an optional string. -/
def truthyStr : Option String → Bool
  | none => false
  | some s => decide (s ≠ "")

/-- `send_resend_notification`: with no recipient configured it warns and
returns `False` without any HTTP attempt; otherwise it runs the retry loop. -/
def send_resend_notification (cfg : AlertCfg) (env : EnvVars)
    (oracle : ℕ → ResendOutcome) : ChannelReport :=
  let recipient_email := pyOrStr cfg.recipient_email env.DEFAULT_RECIPIENT
  if truthyStr recipient_email then resendTry oracle 0 RETRY_ATTEMPTS else emptyReport

/-- `send_slack_notification`: one POST, success is exactly HTTP 200; an
exception is caught and reported as failure. -/
def send_slack_notification (alert : Alert) (webhook_url : String)
    (o : WebhookOutcome) : ChannelReport :=
  { sent := match o with
            | WebhookOutcome.status c => decide (c = 200)
            | WebhookOutcome.exc => false,
    httpAttempts := 1, sleeps := [] }

/-- `send_discord_notification`: one POST, success is exactly HTTP 204. -/
def send_discord_notification (alert : Alert) (webhook_url : String)
    (o : WebhookOutcome) : ChannelReport :=
  { sent := match o with
            | WebhookOutcome.status c => decide (c = 204)
            | WebhookOutcome.exc => false,
    httpAttempts := 1, sleeps := [] }

/-- The cooldown key
`f"{alert.get('equipment_id', alert.get('location_id', 'unknown'))}_{alert['type']}"`. -/
def alertKey (alert : Alert) : String :=
  (match alert.equipment_id with
   | some v => pyStr v
   | none =>
     match alert.location_id with
     | some v => pyStr v
     | none => "unknown") ++ "_" ++ alert.type_

/-- `last_alert_times[key] = now` on the association-list state. -/
def setTime : List (String × ℚ) → String → ℚ → List (String × ℚ)
  | [], k, v => [(k, v)]
  | (k0, v0) :: rest, k, v =>
    if k0 = k then (k, v) :: rest else (k0, v0) :: setTime rest k v

/-- Result of `send_alert_notification`: its return value, the updated
`last_alert_times` state, and each channel's report (`none` = channel skipped,
no HTTP attempt). -/
structure DispatchResult where
  sent : Bool
  times : List (String × ℚ)
  resendReport : ChannelReport
  slackReport : Option ChannelReport
  discordReport : Option ChannelReport
  historyWritten : Bool

/-- Did an optional channel report success? -/
def optSent : Option ChannelReport → Bool
  | none => false
  | some r => r.sent

/-- `send_alert_notification`.  If the key fired within the cooldown window the
call returns `False` and the state is untouched; otherwise the timestamp is
stored *before* any channel is attempted, and the return value is the OR of the
attempted channels' results.  `write_alert_history` (fired when `alerts_db` is
configured) catches its own exceptions and cannot affect the result. -/
def send_alert_notification (times : List (String × ℚ)) (alert : Alert) (cfg : AlertCfg)
    (env : EnvVars) (net : NetOracle) (now : ℚ) : DispatchResult :=
  let key := alertKey alert
  let suppressed : Bool :=
    match dget times key with
    | some t0 => decide (now - t0 < ALERT_COOLDOWN_MINUTES * 60)
    | none => false
  if suppressed then
    { sent := false, times := times, resendReport := emptyReport,
      slackReport := none, discordReport := none, historyWritten := false }
  else
    let times2 := setTime times key now
    let resendReport := send_resend_notification cfg env net.resend
    let slack_webhook := pyOrStr cfg.slack_webhook_url env.SLACK_WEBHOOK_URL
    let slackReport :=
      if truthyStr slack_webhook then
        some (send_slack_notification alert (slack_webhook.getD "") net.slack)
      else none
    let discord_webhook := pyOrStr cfg.discord_webhook_url env.DISCORD_WEBHOOK_URL
    let discordReport :=
      if truthyStr discord_webhook then
        some (send_discord_notification alert (discord_webhook.getD "") net.discord)
      else none
    { sent := resendReport.sent || optSent slackReport || optSent discordReport,
      times := times2, resendReport := resendReport, slackReport := slackReport,
      discordReport := discordReport, historyWritten := truthyStr cfg.alerts_db }

/-!  ## Alert engine: the `process_writes` entry point -/

/-- One table batch handed to `process_writes`. -/
structure TableBatch where
  table_name : String
  rows : List Dict

/-- Loop state of the alert engine's `process_writes`: the cooldown map, how
many dispatches have happened (indexes the per-dispatch network oracle), and
the two counters the function logs. -/
structure EngineState where
  last_alert_times : List (String × ℚ)
  dispatched : ℕ
  alerts_generated : ℕ
  notifications_sent : ℕ
deriving DecidableEq

/-- Processing of one row by one evaluator inside `process_writes`. -/
def engineRowStep (eval : Dict → Option Alert) (cfg : AlertCfg) (env : EnvVars)
    (net : ℕ → NetOracle) (now : ℚ) (s : EngineState) (row : Dict) : EngineState :=
  match eval row with
  | none => s
  | some alert =>
    let d := send_alert_notification s.last_alert_times alert cfg env (net s.dispatched) now
    { last_alert_times := d.times, dispatched := s.dispatched + 1,
      alerts_generated := s.alerts_generated + 1,
      notifications_sent := s.notifications_sent + (if d.sent then 1 else 0) }

/-- The per-table row loop. -/
def engineProcessRows (eval : Dict → Option Alert) (cfg : AlertCfg) (env : EnvVars)
    (net : ℕ → NetOracle) (now : ℚ) : List Dict → EngineState → EngineState
  | [], s => s
  | row :: rest, s =>
    engineProcessRows eval cfg env net now rest (engineRowStep eval cfg env net now s row)

/-- Dispatch of one table batch on its name. -/
def engineBatchStep (cfg : AlertCfg) (env : EnvVars) (net : ℕ → NetOracle) (now : ℚ)
    (nowIso : String) (s : EngineState) (b : TableBatch) : EngineState :=
  if b.table_name = "metrics" then
    engineProcessRows (fun r => process_equipment_alerts r nowIso) cfg env net now b.rows s
  else if b.table_name = "equipment_health" then
    engineProcessRows (fun r => process_health_alerts r nowIso) cfg env net now b.rows s
  else if b.table_name = "energy_consumption" then
    engineProcessRows (fun r => process_energy_alerts r nowIso) cfg env net now b.rows s
  else s

/-- The body of the alert engine's `process_writes` inside its top-level `try`.
Every function it calls catches its own exceptions (each evaluator and each
channel sender has its own `try/except`), so the body runs in `Except` with no
remaining raise site. -/
def process_writes_try (batches : List TableBatch) (cfg : AlertCfg) (env : EnvVars)
    (net : ℕ → NetOracle) (now : ℚ) (nowIso : String)
    (st : List (String × ℚ)) : Except String EngineState :=
  Except.ok (batches.foldl (engineBatchStep cfg env net now nowIso)
    { last_alert_times := st, dispatched := 0, alerts_generated := 0, notifications_sent := 0 })

/-- The alert engine's `process_writes`: the outer `except` logs and returns
normally (Python returns `None` either way; the state is kept for
observation). -/
def process_writes_alert_engine (batches : List TableBatch) (cfg : AlertCfg) (env : EnvVars)
    (net : ℕ → NetOracle) (now : ℚ) (nowIso : String)
    (st : List (String × ℚ)) : EngineState :=
  match process_writes_try batches cfg env net now nowIso st with
  | Except.ok s => s
  | Except.error _ =>
    { last_alert_times := st, dispatched := 0, alerts_generated := 0, notifications_sent := 0 }

/-!  ## Predictive maintenance plugin -/

/-- `HEALTH_SCORE_THRESHOLDS`. -/
def HEALTH_SCORE_THRESHOLDS : List (String × ℚ) :=
  [("excellent", 90), ("good", 75), ("fair", 60), ("poor", 40), ("critical", 20)]

/-- `HEALTH_SCORE_THRESHOLDS[k]` (all five keys are present, so the default is
never reached). -/
def healthThreshold (k : String) : ℚ := (dget HEALTH_SCORE_THRESHOLDS k).getD 0

/-- One entry of `EQUIPMENT_PARAMETERS`. -/
structure EquipParams where
  critical_metrics : List String
  efficiency_baseline : ℚ
  max_operating_temp : ℚ
  failure_indicators : List String
deriving DecidableEq

/-- `EQUIPMENT_PARAMETERS` (float constants are integral). -/
def EQUIPMENT_PARAMETERS : List (String × EquipParams) :=
  [ ("boiler",
     { critical_metrics := ["Water_Temp", "waterTemp", "temperature", "pressure"],
       efficiency_baseline := 85, max_operating_temp := 200,
       failure_indicators := ["rapid_temp_change", "pressure_spike", "efficiency_drop"] }),
    ("chiller",
     { critical_metrics := ["Chilled_Water_Temp", "SupplyTemp", "temperature"],
       efficiency_baseline := 75, max_operating_temp := 50,
       failure_indicators := ["refrigerant_leak", "compressor_issue", "low_efficiency"] }),
    ("air-handler",
     { critical_metrics := ["Supply_Air_Temp", "Supply_Temp", "OutdoorTemp"],
       efficiency_baseline := 80, max_operating_temp := 85,
       failure_indicators := ["fan_bearing_wear", "filter_clog", "motor_overload"] }),
    ("pump",
     { critical_metrics := ["water_temp", "Supply_Temp", "pressure"],
       efficiency_baseline := 70, max_operating_temp := 120,
       failure_indicators := ["cavitation", "bearing_wear", "seal_failure"] }),
    ("fancoil",
     { critical_metrics := ["temperature", "Supply_Temp"],
       efficiency_baseline := 75, max_operating_temp := 90,
       failure_indicators := ["motor_wear", "valve_sticking", "coil_fouling"] }),
    ("geo",
     { critical_metrics := ["LoopTemp", "Loop_Temp"],
       efficiency_baseline := 85, max_operating_temp := 60,
       failure_indicators := ["loop_leak", "compressor_issue", "ground_loop_problem"] }) ]

/-- `EQUIPMENT_PARAMETERS.get(t, {}).get("critical_metrics", [])`. -/
def criticalMetricsOf (t : String) : List String :=
  match dget EQUIPMENT_PARAMETERS t with
  | some p => p.critical_metrics
  | none => []

/-- `... .get("efficiency_baseline", 75.0)`. -/
def efficiencyBaselineOf (t : String) : ℚ :=
  match dget EQUIPMENT_PARAMETERS t with
  | some p => p.efficiency_baseline
  | none => 75

/-- `... .get("max_operating_temp", 100.0)`. -/
def maxOperatingTempOf (t : String) : ℚ :=
  match dget EQUIPMENT_PARAMETERS t with
  | some p => p.max_operating_temp
  | none => 100

/-- The collection loop of `calculate_temperature_health`: gather
`float(metrics[m])` for every configured metric present in the row; a value
`float()` cannot parse raises `ValueError`. -/
def collectTemps (metrics : Dict) : List String → Except String (List ℚ)
  | [] => Except.ok []
  | m :: ms =>
    match dget metrics m with
    | none => collectTemps metrics ms
    | some v =>
      match floatOf v with
      | Except.error e => Except.error e
      | Except.ok q =>
        match collectTemps metrics ms with
        | Except.error e => Except.error e
        | Except.ok rest => Except.ok (q :: rest)

/-- The banded step function of `calculate_temperature_health`. -/
def tempBand (avg_temp max_temp : ℚ) : ℚ :=
  if avg_temp ≤ max_temp * 0.8 then 100
  else if avg_temp ≤ max_temp * 0.9 then 85
  else if avg_temp ≤ max_temp then 70
  else 30

/-- `calculate_temperature_health`: 75 when no configured metric is present,
otherwise the band of the average. -/
def calculate_temperature_health (metrics : Dict) (critical_metrics : List String)
    (max_temp : ℚ) : Except String ℚ :=
  match collectTemps metrics critical_metrics with
  | Except.error e => Except.error e
  | Except.ok [] => Except.ok 75
  | Except.ok (t :: ts) =>
    Except.ok (tempBand ((t :: ts).sum / ((t :: ts).length : ℚ)) max_temp)

/-- `calculate_efficiency_health` — a constant placeholder in the source. -/
def calculate_efficiency_health (metrics : Dict) (baseline_efficiency : ℚ) : ℚ := 80

/-- `calculate_trend_health` — a constant placeholder (it ignores the rolling
history entirely). -/
def calculate_trend_health (equipment_id : String) (metrics : Dict) : ℚ := 75

/-- `calculate_operational_health` — a constant placeholder. -/
def calculate_operational_health (metrics : Dict) (equipment_type : String) : ℚ := 80

/-- `get_health_status`: descending threshold comparison. -/
def get_health_status (health_score : ℚ) : String :=
  if health_score ≥ healthThreshold "excellent" then "excellent"
  else if health_score ≥ healthThreshold "good" then "good"
  else if health_score ≥ healthThreshold "fair" then "fair"
  else if health_score ≥ healthThreshold "poor" then "poor"
  else "critical"

/-- `round(x, 2)` (see the header note on half-way ties). -/
def round2 (q : ℚ) : ℚ := ((⌊q * 100 + 1 / 2⌋ : ℤ) : ℚ) / 100

/-- The full analysis dict built by `analyze_equipment_health` on its normal
path. -/
structure HealthAnalysis where
  health_score : ℚ
  status : String
  temperature_health : ℚ
  efficiency_health : ℚ
  trend_health : ℚ
  operational_health : ℚ
  equipment_type : String
deriving DecidableEq

/-- A result of `analyze_equipment_health`: the full analysis dict, or one of
the two short dicts (`{health_score: 50, status: "unknown"/"error", ...}`). -/
inductive HealthResult where
  | full (a : HealthAnalysis)
  | fallback (health_score : ℚ) (status : String)
deriving DecidableEq

/-- Body of `analyze_equipment_health` inside its `try`.  The rolling-history
side effect (`update_equipment_history`) cannot raise and is not consumed by
any sub-score (the trend placeholder ignores it), so it is not threaded here. -/
def analyze_equipment_healthExc (equipmentId : Value) (metrics : Dict) :
    Except String HealthResult :=
  match asStringE equipmentId with
  | Except.error e => Except.error e
  | Except.ok eid =>
    let equipment_type := determineEquipmentType eid
    if equipment_type = "" then Except.ok (HealthResult.fallback 50 "unknown")
    else
      let critical_metrics := criticalMetricsOf equipment_type
      let efficiency_baseline := efficiencyBaselineOf equipment_type
      let max_temp := maxOperatingTempOf equipment_type
      match calculate_temperature_health metrics critical_metrics max_temp with
      | Except.error e => Except.error e
      | Except.ok temperature_health =>
        let efficiency_health := calculate_efficiency_health metrics efficiency_baseline
        let trend_health := calculate_trend_health eid metrics
        let operational_health := calculate_operational_health metrics equipment_type
        let health_score := temperature_health * 0.25 + efficiency_health * 0.25 +
          trend_health * 0.30 + operational_health * 0.20
        let health_status := get_health_status health_score
        Except.ok (HealthResult.full
          { health_score := round2 health_score,
            status := health_status,
            temperature_health := round2 temperature_health,
            efficiency_health := round2 efficiency_health,
            trend_health := round2 trend_health,
            operational_health := round2 operational_health,
            equipment_type := equipment_type })

/-- `analyze_equipment_health` with its catch-all, which returns
`{"health_score": 50, "status": "error", ...}`. -/
def analyze_equipment_health (equipmentId : Value) (metrics : Dict) : HealthResult :=
  match analyze_equipment_healthExc equipmentId metrics with
  | Except.ok r => r
  | Except.error _ => HealthResult.fallback 50 "error"

/-- `result.get("health_score", 100)` — the key is present on every path. -/
def healthScoreOf : HealthResult → ℚ
  | HealthResult.full a => a.health_score
  | HealthResult.fallback s _ => s

/-- `result.get("status", "unknown")` — the key is present on every path. -/
def statusOf : HealthResult → String
  | HealthResult.full a => a.status
  | HealthResult.fallback _ st => st

/-- The health-score driven part of `predict_equipment_failure` (probability,
time to failure, priority); the narrative fields (failure modes, text
recommendation, timestamp) are pure reporting. -/
structure FailurePrediction where
  failure_probability : ℚ
  estimated_time_to_failure_days : ℚ
  maintenance_priority : String
deriving DecidableEq

/-- `predict_equipment_failure` on `health_analysis.get("health_score", 50)`. -/
def predict_equipment_failure (health_analysis : HealthResult) : FailurePrediction :=
  let health_score := healthScoreOf health_analysis
  let pt : ℚ × ℚ :=
    if health_score ≥ 85 then (5, 180)
    else if health_score ≥ 70 then (15, 90)
    else if health_score ≥ 50 then (35, 30)
    else if health_score ≥ 30 then (60, 14)
    else (85, 7)
  let priority :=
    if pt.1 ≥ 60 then "critical"
    else if pt.1 ≥ 35 then "high"
    else if pt.1 ≥ 15 then "medium"
    else "low"
  { failure_probability := pt.1, estimated_time_to_failure_days := pt.2,
    maintenance_priority := priority }

/-- The record written by `generate_maintenance_alert` (tags/fields that depend
on the inputs; the message text is reporting only). -/
structure MaintenanceAlert where
  alert_level : String
  health_score : ℚ
  failure_probability : ℚ
deriving DecidableEq

/-- `generate_maintenance_alert`'s level selection and record. -/
def generate_maintenance_alert (health_analysis : HealthResult)
    (failure_prediction : FailurePrediction) : MaintenanceAlert :=
  let alert_level :=
    if healthScoreOf health_analysis < healthThreshold "critical" then "critical"
    else if failure_prediction.failure_probability > 60 then "high"
    else "warning"
  { alert_level := alert_level, health_score := healthScoreOf health_analysis,
    failure_probability := failure_prediction.failure_probability }

/-- Counters and alert records produced by the maintenance `process_writes`. -/
structure MaintStats where
  processed_equipment : ℕ
  alerts_generated : ℕ
  maintenance_alerts : List MaintenanceAlert
deriving DecidableEq

/-- One row of the maintenance `process_writes` loop.  The schedule update and
the analytics writes are omitted: each catches its own exceptions and only
emits line-protocol records, so neither can affect the counters or the guard. -/
def maintRowStep (s : MaintStats) (row : Dict) : MaintStats :=
  let equipment_id := dget row "equipmentId"
  let location_id := dget row "location_id"
  if truthyOpt equipment_id && truthyOpt location_id then
    match equipment_id with
    | some eqv =>
      let health_analysis := analyze_equipment_health eqv row
      let failure_prediction := predict_equipment_failure health_analysis
      let s2 := { s with processed_equipment := s.processed_equipment + 1 }
      if healthScoreOf health_analysis < healthThreshold "poor" then
        { s2 with alerts_generated := s2.alerts_generated + 1,
                  maintenance_alerts := s2.maintenance_alerts ++
                    [generate_maintenance_alert health_analysis failure_prediction] }
      else s2
    | none => s
  else s

/-- The row loop of the maintenance `process_writes`. -/
def maintProcessRows : List Dict → MaintStats → MaintStats
  | [], s => s
  | row :: rest, s => maintProcessRows rest (maintRowStep s row)

/-- The maintenance plugin's `process_writes` (only `metrics` batches are
analyzed). -/
def process_writes_maintenance (batches : List TableBatch) : MaintStats :=
  batches.foldl
    (fun s b => if b.table_name = "metrics" then maintProcessRows b.rows s else s)
    { processed_equipment := 0, alerts_generated := 0, maintenance_alerts := [] }

/-!  ## Shared lemmas -/

/-- Storing a timestamp makes it the one found for that key. -/
theorem dget_setTime_self (st : List (String × ℚ)) (k : String) (v : ℚ) :
    dget (setTime st k v) k = some v := by
  induction st with
  | nil => simp [setTime, dget]
  | cons p rest ih =>
    obtain ⟨k0, v0⟩ := p
    by_cases h : k0 = k
    · simp [setTime, h, dget]
    · simp [setTime, h, dget, ih]

/-- `determine_equipment_type` returns one of seven fixed names. -/
theorem determineEquipmentType_cases (s : String) :
    determineEquipmentType s = "boiler" ∨ determineEquipmentType s = "chiller" ∨
    determineEquipmentType s = "pump" ∨ determineEquipmentType s = "air-handler" ∨
    determineEquipmentType s = "fancoil" ∨ determineEquipmentType s = "geo" ∨
    determineEquipmentType s = "unknown" := by
  unfold determineEquipmentType
  dsimp only
  split_ifs <;> simp

/-- Every `critical_temp` entry in the threshold tables is positive. -/
theorem thresholds_crit_pos (eid : String) (C : ℚ)
    (h : dget (thresholdsFor (determineEquipmentType eid)) "critical_temp" = some C) :
    0 < C := by
  rcases determineEquipmentType_cases eid with h1 | h1 | h1 | h1 | h1 | h1 | h1 <;>
    rw [h1] at h <;>
    simp [thresholdsFor, EQUIPMENT_ALERT_THRESHOLDS, dget] at h <;>
    (subst h; norm_num)

/-- Every `high_temp` entry in the threshold tables is positive. -/
theorem thresholds_high_pos (eid : String) (H : ℚ)
    (h : dget (thresholdsFor (determineEquipmentType eid)) "high_temp" = some H) :
    0 < H := by
  rcases determineEquipmentType_cases eid with h1 | h1 | h1 | h1 | h1 | h1 | h1 <;>
    rw [h1] at h <;>
    simp [thresholdsFor, EQUIPMENT_ALERT_THRESHOLDS, dget] at h <;>
    (subst h; norm_num)

/-- The temperature sub-score can only be one of five values. -/
theorem calc_temp_health_mem (m : Dict) (cms : List String) (mt q : ℚ)
    (h : calculate_temperature_health m cms mt = Except.ok q) :
    q = 75 ∨ q = 100 ∨ q = 85 ∨ q = 70 ∨ q = 30 := by
  unfold calculate_temperature_health at h
  cases hc : collectTemps m cms with
  | error e => rw [hc] at h; cases h
  | ok temps =>
    rw [hc] at h
    cases temps with
    | nil =>
      simp only [Except.ok.injEq] at h
      exact Or.inl h.symm
    | cons t ts =>
      simp only [Except.ok.injEq] at h
      unfold tempBand at h
      split_ifs at h <;> simp [← h]

/-- `analyze_equipment_health` returns the short unknown dict, the short error
dict, or a full analysis. -/
theorem analyze_result_cases (v : Value) (m : Dict) :
    analyze_equipment_health v m = HealthResult.fallback 50 "unknown" ∨
    analyze_equipment_health v m = HealthResult.fallback 50 "error" ∨
    (∃ a, analyze_equipment_health v m = HealthResult.full a) := by
  unfold analyze_equipment_health analyze_equipment_healthExc
  cases hs : asStringE v with
  | error e => simp
  | ok eid =>
    dsimp only
    by_cases he : determineEquipmentType eid = ""
    · simp [he]
    · simp only [he, if_false]
      cases hct : calculate_temperature_health m (criticalMetricsOf (determineEquipmentType eid))
          (maxOperatingTempOf (determineEquipmentType eid)) with
      | error e => simp
      | ok t => simp

/-- Inversion of the full-analysis path: the sub-scores are the temperature
band plus the three constants, and score and status are computed from them. -/
theorem analyze_full_inv (v : Value) (m : Dict) (a : HealthAnalysis)
    (h : analyze_equipment_health v m = HealthResult.full a) :
    ∃ t : ℚ, (t = 75 ∨ t = 100 ∨ t = 85 ∨ t = 70 ∨ t = 30) ∧
      a.temperature_health = round2 t ∧
      a.efficiency_health = round2 80 ∧
      a.trend_health = round2 75 ∧
      a.operational_health = round2 80 ∧
      a.health_score = round2 (t * 0.25 + 80 * 0.25 + 75 * 0.30 + 80 * 0.20) ∧
      a.status = get_health_status (t * 0.25 + 80 * 0.25 + 75 * 0.30 + 80 * 0.20) := by
  unfold analyze_equipment_health analyze_equipment_healthExc at h
  cases hs : asStringE v with
  | error e => rw [hs] at h; cases h
  | ok eid =>
    rw [hs] at h
    dsimp only at h
    by_cases he : determineEquipmentType eid = ""
    · rw [if_pos he] at h; cases h
    · rw [if_neg he] at h
      cases hct : calculate_temperature_health m (criticalMetricsOf (determineEquipmentType eid))
          (maxOperatingTempOf (determineEquipmentType eid)) with
      | error e => rw [hct] at h; cases h
      | ok t =>
        rw [hct] at h
        simp only [calculate_efficiency_health, calculate_trend_health,
          calculate_operational_health, Except.ok.injEq, HealthResult.full.injEq] at h
        refine ⟨t, calc_temp_health_mem m _ _ t hct, ?_, ?_, ?_, ?_, ?_, ?_⟩ <;>
          rw [← h]

/-- `HEALTH_SCORE_THRESHOLDS["excellent"]`. -/
theorem healthThreshold_excellent : healthThreshold "excellent" = 90 := rfl

/-- `HEALTH_SCORE_THRESHOLDS["good"]`. -/
theorem healthThreshold_good : healthThreshold "good" = 75 := rfl

/-- `HEALTH_SCORE_THRESHOLDS["fair"]`. -/
theorem healthThreshold_fair : healthThreshold "fair" = 60 := rfl

/-- `HEALTH_SCORE_THRESHOLDS["poor"]`. -/
theorem healthThreshold_poor : healthThreshold "poor" = 40 := rfl

/-- `HEALTH_SCORE_THRESHOLDS["critical"]`. -/
theorem healthThreshold_critical : healthThreshold "critical" = 20 := rfl

/-- The health score emitted by `analyze_equipment_health` is always one of six
values (50 on the short paths, the five weighted sums otherwise). -/
theorem healthScore_mem (v : Value) (m : Dict) :
    healthScoreOf (analyze_equipment_health v m) = 50 ∨
    healthScoreOf (analyze_equipment_health v m) = 66 ∨
    healthScoreOf (analyze_equipment_health v m) = 76 ∨
    healthScoreOf (analyze_equipment_health v m) = 77.25 ∨
    healthScoreOf (analyze_equipment_health v m) = 79.75 ∨
    healthScoreOf (analyze_equipment_health v m) = 83.5 := by
  rcases analyze_result_cases v m with h | h | ⟨a, h⟩
  · rw [h]; left; rfl
  · rw [h]; left; rfl
  · rw [h]
    obtain ⟨t, ht, -, -, -, -, hscore, -⟩ := analyze_full_inv v m a h
    show a.health_score = 50 ∨ a.health_score = 66 ∨ a.health_score = 76 ∨
      a.health_score = 77.25 ∨ a.health_score = 79.75 ∨ a.health_score = 83.5
    rcases ht with rfl | rfl | rfl | rfl | rfl <;> rw [hscore] <;> norm_num [round2]

/-- The emitted health score is never below 50, so never below the "poor"
threshold of 40. -/
theorem healthScore_ge_50 (v : Value) (m : Dict) :
    50 ≤ healthScoreOf (analyze_equipment_health v m) := by
  rcases healthScore_mem v m with h | h | h | h | h | h <;> rw [h] <;> norm_num

/-- The emitted status is one of `unknown`, `error`, `fair`, `good`. -/
theorem status_mem (v : Value) (m : Dict) :
    statusOf (analyze_equipment_health v m) = "unknown" ∨
    statusOf (analyze_equipment_health v m) = "error" ∨
    statusOf (analyze_equipment_health v m) = "fair" ∨
    statusOf (analyze_equipment_health v m) = "good" := by
  rcases analyze_result_cases v m with h | h | ⟨a, h⟩
  · rw [h]; left; rfl
  · rw [h]; right; left; rfl
  · rw [h]
    obtain ⟨t, ht, -, -, -, -, -, hstatus⟩ := analyze_full_inv v m a h
    show a.status = "unknown" ∨ a.status = "error" ∨ a.status = "fair" ∨ a.status = "good"
    rcases ht with rfl | rfl | rfl | rfl | rfl <;> rw [hstatus] <;>
      rw [get_health_status, healthThreshold_excellent, healthThreshold_good,
        healthThreshold_fair, healthThreshold_poor] <;>
      norm_num

/-- One row step of the maintenance loop never takes the alert branch. -/
theorem maintRowStep_no_alert (s : MaintStats) (row : Dict) :
    (maintRowStep s row).alerts_generated = s.alerts_generated ∧
    (maintRowStep s row).maintenance_alerts = s.maintenance_alerts := by
  unfold maintRowStep
  dsimp only
  by_cases h : (truthyOpt (dget row "equipmentId") && truthyOpt (dget row "location_id")) = true
  · rw [if_pos h]
    cases he : dget row "equipmentId" with
    | none => exact ⟨rfl, rfl⟩
    | some eqv =>
      dsimp only
      have h50 := healthScore_ge_50 eqv row
      have hlt : ¬ (healthScoreOf (analyze_equipment_health eqv row) < healthThreshold "poor") := by
        rw [healthThreshold_poor]
        linarith
      rw [if_neg hlt]
      exact ⟨rfl, rfl⟩
  · rw [if_neg h]
    exact ⟨rfl, rfl⟩

/-- The maintenance row loop preserves the alert counters. -/
theorem maintProcessRows_no_alert (rows : List Dict) (s : MaintStats) :
    (maintProcessRows rows s).alerts_generated = s.alerts_generated ∧
    (maintProcessRows rows s).maintenance_alerts = s.maintenance_alerts := by
  induction rows generalizing s with
  | nil => exact ⟨rfl, rfl⟩
  | cons row rest ih =>
    have hr := maintRowStep_no_alert s row
    have := ih (maintRowStep s row)
    unfold maintProcessRows
    exact ⟨this.1.trans hr.1, this.2.trans hr.2⟩

/-!  ## Claim theorems -/

/-- C3: on the non-exception path, the health score returned by
`analyze_equipment_health` equals the weighted sum
`0.25*temperature + 0.25*efficiency + 0.30*trend + 0.20*operational`; every
sub-score and the score lie in [0,100]; and the reported status is the
descending-threshold bucket of the score ("excellent" iff score ≥ 90, "good"
iff 75 ≤ score < 90, "fair" iff 60 ≤ score < 75, "poor" iff 40 ≤ score < 60,
"critical" for every score below 40). -/
theorem c3_health_score_formula_and_buckets (equipmentId : Value) (metrics : Dict)
    (a : HealthAnalysis)
    (h : analyze_equipment_health equipmentId metrics = HealthResult.full a) :
    a.health_score = a.temperature_health * 0.25 + a.efficiency_health * 0.25 +
      a.trend_health * 0.30 + a.operational_health * 0.20 ∧
    (0 ≤ a.temperature_health ∧ a.temperature_health ≤ 100) ∧
    (0 ≤ a.efficiency_health ∧ a.efficiency_health ≤ 100) ∧
    (0 ≤ a.trend_health ∧ a.trend_health ≤ 100) ∧
    (0 ≤ a.operational_health ∧ a.operational_health ≤ 100) ∧
    (0 ≤ a.health_score ∧ a.health_score ≤ 100) ∧
    (a.status = "excellent" ↔ 90 ≤ a.health_score) ∧
    (a.status = "good" ↔ 75 ≤ a.health_score ∧ a.health_score < 90) ∧
    (a.status = "fair" ↔ 60 ≤ a.health_score ∧ a.health_score < 75) ∧
    (a.status = "poor" ↔ 40 ≤ a.health_score ∧ a.health_score < 60) ∧
    (a.status = "critical" ↔ a.health_score < 40) := by
  obtain ⟨t, ht, htemp, heff, htr, hop, hscore, hstatus⟩ :=
    analyze_full_inv equipmentId metrics a h
  rcases ht with rfl | rfl | rfl | rfl | rfl <;>
    rw [htemp, heff, htr, hop, hscore, hstatus] <;>
    simp only [get_health_status, healthThreshold_excellent, healthThreshold_good,
      healthThreshold_fair, healthThreshold_poor] <;>
    norm_num [round2] <;> simp

/-- C3 witness: a concrete boiler reading (Water_Temp 150) lands on the full
path with score 83.5 and status "good". -/
theorem c3_health_score_formula_and_buckets_witness :
    ∃ a, analyze_equipment_health (Value.str "boiler-1") [("Water_Temp", Value.num 150)] =
        HealthResult.full a ∧
      a.health_score = a.temperature_health * 0.25 + a.efficiency_health * 0.25 +
        a.trend_health * 0.30 + a.operational_health * 0.20 ∧
      (a.status = "good" ↔ 75 ≤ a.health_score ∧ a.health_score < 90) := by
  have hct : calculate_temperature_health [("Water_Temp", Value.num 150)]
      (criticalMetricsOf "boiler") (maxOperatingTempOf "boiler") = Except.ok 100 := by
    have hcoll : collectTemps [("Water_Temp", Value.num 150)] (criticalMetricsOf "boiler") =
        Except.ok [150] := by rfl
    unfold calculate_temperature_health
    rw [hcoll, show maxOperatingTempOf "boiler" = 200 from rfl]
    norm_num [tempBand]
  have hana : analyze_equipment_health (Value.str "boiler-1") [("Water_Temp", Value.num 150)] =
      HealthResult.full { health_score := 83.5, status := "good", temperature_health := 100,
                          efficiency_health := 80, trend_health := 75, operational_health := 80,
                          equipment_type := "boiler" } := by
    unfold analyze_equipment_health analyze_equipment_healthExc
    rw [show asStringE (Value.str "boiler-1") = Except.ok "boiler-1" from rfl]
    dsimp only
    rw [show determineEquipmentType "boiler-1" = "boiler" from by decide]
    norm_num [hct, calculate_efficiency_health, calculate_trend_health,
      calculate_operational_health, get_health_status, healthThreshold_excellent,
      healthThreshold_good, round2]
    simp
  refine ⟨_, hana, ?_, ?_⟩
  · exact (c3_health_score_formula_and_buckets _ _ _ hana).1
  · exact (c3_health_score_formula_and_buckets _ _ _ hana).2.2.2.2.2.2.2.1

/-- The maintenance batch fold preserves the alert counters. -/
theorem maintFold_no_alert (batches : List TableBatch) (s : MaintStats) :
    (batches.foldl
      (fun s b => if b.table_name = "metrics" then maintProcessRows b.rows s else s)
      s).alerts_generated = s.alerts_generated ∧
    (batches.foldl
      (fun s b => if b.table_name = "metrics" then maintProcessRows b.rows s else s)
      s).maintenance_alerts = s.maintenance_alerts := by
  induction batches generalizing s with
  | nil => exact ⟨rfl, rfl⟩
  | cons b rest ih =>
    simp only [List.foldl]
    by_cases hb : b.table_name = "metrics"
    · rw [if_pos hb]
      have h1 := maintProcessRows_no_alert b.rows s
      have h2 := ih (maintProcessRows b.rows s)
      exact ⟨h2.1.trans h1.1, h2.2.trans h1.2⟩
    · rw [if_neg hb]
      exact ih s

/-- C5 (implicit): with the efficiency, trend and operational sub-scores being
the constants 80, 75 and 80, every emitted health score equals
`0.25*temperature_health + 58.5` with `temperature_health` in
{30, 70, 75, 85, 100} (so the score is one of 66, 76, 77.25, 79.75, 83.5, and
50 on the exception path); the score is therefore always at least 50, the
`health_score < 40` guard in the maintenance `process_writes` never fires,
`generate_maintenance_alert` is unreachable from it, and the emitted status is
never "excellent", "poor" or "critical". -/
theorem c5_constant_subscores_consequences (equipmentId : Value) (metrics : Dict)
    (batches : List TableBatch) :
    (healthScoreOf (analyze_equipment_health equipmentId metrics) = 50 ∨
     healthScoreOf (analyze_equipment_health equipmentId metrics) = 66 ∨
     healthScoreOf (analyze_equipment_health equipmentId metrics) = 76 ∨
     healthScoreOf (analyze_equipment_health equipmentId metrics) = 77.25 ∨
     healthScoreOf (analyze_equipment_health equipmentId metrics) = 79.75 ∨
     healthScoreOf (analyze_equipment_health equipmentId metrics) = 83.5) ∧
    (∀ a, analyze_equipment_health equipmentId metrics = HealthResult.full a →
       (a.temperature_health = 30 ∨ a.temperature_health = 70 ∨ a.temperature_health = 75 ∨
        a.temperature_health = 85 ∨ a.temperature_health = 100) ∧
       a.health_score = a.temperature_health * 0.25 + 58.5) ∧
    50 ≤ healthScoreOf (analyze_equipment_health equipmentId metrics) ∧
    ¬ (healthScoreOf (analyze_equipment_health equipmentId metrics) < healthThreshold "poor") ∧
    statusOf (analyze_equipment_health equipmentId metrics) ≠ "excellent" ∧
    statusOf (analyze_equipment_health equipmentId metrics) ≠ "poor" ∧
    statusOf (analyze_equipment_health equipmentId metrics) ≠ "critical" ∧
    (process_writes_maintenance batches).alerts_generated = 0 ∧
    (process_writes_maintenance batches).maintenance_alerts = [] := by
  refine ⟨healthScore_mem equipmentId metrics, ?_, healthScore_ge_50 equipmentId metrics,
    ?_, ?_, ?_, ?_, ?_, ?_⟩
  · intro a h
    obtain ⟨t, ht, htemp, -, -, -, hscore, -⟩ := analyze_full_inv equipmentId metrics a h
    rcases ht with rfl | rfl | rfl | rfl | rfl <;> rw [htemp, hscore] <;>
      constructor <;> norm_num [round2]
  · rw [healthThreshold_poor]
    have := healthScore_ge_50 equipmentId metrics
    linarith
  · rcases status_mem equipmentId metrics with h | h | h | h <;> rw [h] <;> simp
  · rcases status_mem equipmentId metrics with h | h | h | h <;> rw [h] <;> simp
  · rcases status_mem equipmentId metrics with h | h | h | h <;> rw [h] <;> simp
  · exact (maintFold_no_alert batches _).1
  · exact (maintFold_no_alert batches _).2

/-- C5 witness: concrete instances of the bounds and the never-firing guard. -/
theorem c5_constant_subscores_consequences_witness :
    50 ≤ healthScoreOf (analyze_equipment_health (Value.str "pump-7") []) ∧
    statusOf (analyze_equipment_health (Value.str "pump-7") []) ≠ "critical" ∧
    (process_writes_maintenance
      [{ table_name := "metrics",
         rows := [[("equipmentId", Value.str "pump-7"), ("location_id", Value.str "1")]] }]
      ).alerts_generated = 0 := by
  refine ⟨(c5_constant_subscores_consequences (Value.str "pump-7") [] []).2.2.1,
    (c5_constant_subscores_consequences (Value.str "pump-7") [] []).2.2.2.2.2.2.1,
    (c5_constant_subscores_consequences (Value.str "pump-7") []
      [{ table_name := "metrics",
         rows := [[("equipmentId", Value.str "pump-7"), ("location_id", Value.str "1")]] }]
      ).2.2.2.2.2.2.2.1⟩

/-- `round2` is monotone. -/
theorem round2_mono {x y : ℚ} (h : x ≤ y) : round2 x ≤ round2 y := by
  unfold round2
  have h2 : (⌊x * 100 + 1 / 2⌋ : ℤ) ≤ ⌊y * 100 + 1 / 2⌋ := by
    apply Int.floor_mono
    linarith
  have h3 : ((⌊x * 100 + 1 / 2⌋ : ℤ) : ℚ) ≤ ((⌊y * 100 + 1 / 2⌋ : ℤ) : ℚ) := by
    exact_mod_cast h2
  linarith

/-- The temperature band is non-increasing in the average temperature. -/
theorem tempBand_antitone (maxT a1 a2 : ℚ) (h : a1 ≤ a2) :
    tempBand a2 maxT ≤ tempBand a1 maxT := by
  unfold tempBand
  split_ifs <;> linarith

/-- C6: the temperature sub-score is the step function of the average of the
configured critical metrics against the category maximum: ≤ 0.8·max ⇒ 100,
≤ 0.9·max ⇒ 85, ≤ max ⇒ 70, above ⇒ 30, and 75 when no configured metric is
present; consequently, holding the other (constant) sub-scores fixed, the
overall health score is non-increasing as the average rises. -/
theorem c6_temperature_step_and_monotonicity (metrics : Dict) (cms : List String) (maxT : ℚ)
    (temps : List ℚ) (hmax : 0 ≤ maxT) (hc : collectTemps metrics cms = Except.ok temps) :
    (temps = [] → calculate_temperature_health metrics cms maxT = Except.ok 75) ∧
    (∀ t ts, temps = t :: ts →
      ((t :: ts).sum / ((t :: ts).length : ℚ) ≤ maxT * 0.8 →
        calculate_temperature_health metrics cms maxT = Except.ok 100) ∧
      (maxT * 0.8 < (t :: ts).sum / ((t :: ts).length : ℚ) →
        (t :: ts).sum / ((t :: ts).length : ℚ) ≤ maxT * 0.9 →
        calculate_temperature_health metrics cms maxT = Except.ok 85) ∧
      (maxT * 0.9 < (t :: ts).sum / ((t :: ts).length : ℚ) →
        (t :: ts).sum / ((t :: ts).length : ℚ) ≤ maxT →
        calculate_temperature_health metrics cms maxT = Except.ok 70) ∧
      (maxT < (t :: ts).sum / ((t :: ts).length : ℚ) →
        calculate_temperature_health metrics cms maxT = Except.ok 30)) ∧
    (∀ a1 a2 : ℚ, a1 ≤ a2 → tempBand a2 maxT ≤ tempBand a1 maxT) ∧
    (∀ a1 a2 : ℚ, a1 ≤ a2 →
      round2 (tempBand a2 maxT * 0.25 + 80 * 0.25 + 75 * 0.30 + 80 * 0.20) ≤
      round2 (tempBand a1 maxT * 0.25 + 80 * 0.25 + 75 * 0.30 + 80 * 0.20)) := by
  refine ⟨?_, ?_, fun a1 a2 h => tempBand_antitone maxT a1 a2 h, ?_⟩
  · intro h
    subst h
    unfold calculate_temperature_health
    rw [hc]
  · intro t ts h
    subst h
    unfold calculate_temperature_health
    rw [hc]
    dsimp only
    refine ⟨?_, ?_, ?_, ?_⟩
    · intro h1
      unfold tempBand
      rw [if_pos h1]
    · intro h1 h2
      unfold tempBand
      rw [if_neg (by linarith), if_pos h2]
    · intro h1 h2
      unfold tempBand
      rw [if_neg (by linarith), if_neg (by linarith), if_pos h2]
    · intro h1
      unfold tempBand
      rw [if_neg (by linarith), if_neg (by linarith), if_neg (by linarith)]
  · intro a1 a2 h
    have hband := tempBand_antitone maxT a1 a2 h
    exact round2_mono (by linarith)

/-- C6 witness: a boiler reading with average 150 against max 200 sits in the
first band (150 ≤ 160) and yields sub-score 100. -/
theorem c6_temperature_step_and_monotonicity_witness :
    calculate_temperature_health [("Water_Temp", Value.num 150)]
      (criticalMetricsOf "boiler") (maxOperatingTempOf "boiler") = Except.ok 100 ∧
    tempBand 190 200 ≤ tempBand 150 200 := by
  have hc : collectTemps [("Water_Temp", Value.num 150)] (criticalMetricsOf "boiler") =
      Except.ok [150] := by rfl
  have h := c6_temperature_step_and_monotonicity [("Water_Temp", Value.num 150)]
    (criticalMetricsOf "boiler") (maxOperatingTempOf "boiler") [150]
    (by rw [show maxOperatingTempOf "boiler" = 200 from rfl]; norm_num) hc
  refine ⟨?_, ?_⟩
  · refine ((h.2.1 150 [] rfl).1 ?_)
    rw [show maxOperatingTempOf "boiler" = 200 from rfl]
    norm_num
  · have := h.2.2.1 150 190 (by norm_num)
    rw [show maxOperatingTempOf "boiler" = 200 from rfl] at this
    exact this

/-- C4: for an `equipment_health` row with a present (truthy) `equipment_id`
and a numeric `health_score` `hs`: `hs < 20` yields exactly one CRITICAL
`EQUIPMENT_HEALTH_CRITICAL` candidate with value `hs`, threshold 20 and source
`predictive_maintenance`; `20 ≤ hs < 40` yields one WARNING
`EQUIPMENT_HEALTH_LOW` candidate with threshold 40 and the same source;
`hs ≥ 40` yields none.  A score of 15 classifies as status "critical". -/
theorem c4_health_alert_bands (row : Dict) (nowIso : String) (ev : Value) (hs : ℚ)
    (heq : dget row "equipment_id" = some ev) (hev : truthy ev = true)
    (hhs : dget row "health_score" = some (Value.num hs)) :
    (hs < 20 → ∃ a, process_health_alerts row nowIso = some a ∧
      a.severity = "CRITICAL" ∧ a.type_ = "EQUIPMENT_HEALTH_CRITICAL" ∧
      a.value = hs ∧ a.threshold = 20 ∧ a.source = "predictive_maintenance") ∧
    ((20 ≤ hs → hs < 40 → ∃ a, process_health_alerts row nowIso = some a ∧
      a.severity = "WARNING" ∧ a.type_ = "EQUIPMENT_HEALTH_LOW" ∧
      a.value = hs ∧ a.threshold = 40 ∧ a.source = "predictive_maintenance")) ∧
    (40 ≤ hs → process_health_alerts row nowIso = none) ∧
    get_health_status 15 = "critical" := by
  unfold process_health_alerts process_health_alertsExc
  dsimp only
  rw [heq]
  rw [if_neg (show ¬((!truthyOpt (some ev)) = true) from by simp [truthyOpt, hev])]
  have hget : dgetD row "health_score" (Value.num 100) = Value.num hs := by
    simp [dgetD, hhs]
  rw [hget]
  dsimp only
  refine ⟨?_, ?_, ?_, ?_⟩
  · intro h
    rw [if_pos h]
    exact ⟨_, rfl, rfl, rfl, rfl, rfl, rfl⟩
  · intro h1 h2
    rw [if_neg (show ¬ hs < 20 from by linarith), if_pos h2]
    exact ⟨_, rfl, rfl, rfl, rfl, rfl, rfl⟩
  · intro h
    rw [if_neg (show ¬ hs < 20 from by linarith), if_neg (show ¬ hs < 40 from by linarith)]
  · norm_num [get_health_status, healthThreshold_excellent, healthThreshold_good,
      healthThreshold_fair, healthThreshold_poor]

/-- C4 witness: a health row with score 15 yields the CRITICAL candidate and
status "critical". -/
theorem c4_health_alert_bands_witness :
    (∃ a, process_health_alerts
        [("equipment_id", Value.str "boiler-3"), ("location_id", Value.str "4"),
         ("health_score", Value.num 15)] "t0" = some a ∧
      a.severity = "CRITICAL" ∧ a.type_ = "EQUIPMENT_HEALTH_CRITICAL" ∧
      a.value = 15 ∧ a.threshold = 20 ∧ a.source = "predictive_maintenance") ∧
    get_health_status 15 = "critical" := by
  have h := c4_health_alert_bands
    [("equipment_id", Value.str "boiler-3"), ("location_id", Value.str "4"),
     ("health_score", Value.num 15)] "t0" (Value.str "boiler-3") 15 rfl (by decide) rfl
  exact ⟨h.1 (by norm_num), h.2.2.2⟩

/-- C1: for a metrics row with truthy `equipmentId` (a string) and truthy
`location_id`, whose category thresholds contain `critical_temp = C` and
`high_temp = H` with `C > H`, and whose extracted temperature is the number
`v`: `v > C` yields exactly one CRITICAL HIGH_TEMPERATURE candidate with value
`v` and threshold `C`; `H < v ≤ C` yields exactly one WARNING candidate with
threshold `H`; `v ≤ H` yields no candidate.  The comparisons are strict, so
`v = C` gives WARNING and `v = H` gives no alert (special cases of the
bands). -/
theorem c1_threshold_evaluator (row : Dict) (nowIso : String) (eid : String) (lv : Value)
    (C H v : ℚ)
    (heq : dget row "equipmentId" = some (Value.str eid)) (heid : eid ≠ "")
    (hloc : dget row "location_id" = some lv) (hlv : truthy lv = true)
    (hC : dget (thresholdsFor (determineEquipmentType eid)) "critical_temp" = some C)
    (hH : dget (thresholdsFor (determineEquipmentType eid)) "high_temp" = some H)
    (hCH : H < C)
    (hT : extractTemp row = Value.num v) :
    (C < v → process_equipment_alerts row nowIso = some
      { severity := "CRITICAL", type_ := "HIGH_TEMPERATURE",
        message := "CRITICAL: " ++ determineEquipmentType eid ++ " " ++ eid ++
          " temperature " ++ toString v ++ "F exceeds critical threshold " ++
          toString C ++ "F",
        value := v, threshold := C,
        equipment_id := some (Value.str eid), location_id := some lv,
        equipment_type := some (determineEquipmentType eid),
        timestamp := nowIso, source := "equipment_monitoring" }) ∧
    (H < v → v ≤ C → process_equipment_alerts row nowIso = some
      { severity := "WARNING", type_ := "HIGH_TEMPERATURE",
        message := "WARNING: " ++ determineEquipmentType eid ++ " " ++ eid ++
          " temperature " ++ toString v ++ "F exceeds high threshold " ++
          toString H ++ "F",
        value := v, threshold := H,
        equipment_id := some (Value.str eid), location_id := some lv,
        equipment_type := some (determineEquipmentType eid),
        timestamp := nowIso, source := "equipment_monitoring" }) ∧
    (v ≤ H → process_equipment_alerts row nowIso = none) := by
  have hCpos := thresholds_crit_pos eid C hC
  have hHpos := thresholds_high_pos eid H hH
  unfold process_equipment_alerts process_equipment_alertsExc
  dsimp only
  rw [heq, hloc, hT]
  have h1 : truthyOpt (some (Value.str eid)) = true := by
    simp [truthyOpt, truthy, heid]
  have h2 : truthyOpt (some lv) = true := by
    simp only [truthyOpt]
    exact hlv
  rw [if_neg (show ¬((!(truthyOpt (some (Value.str eid)) &&
    truthyOpt (some lv))) = true) from by rw [h1, h2]; simp)]
  rw [show valueAsStringE (some (Value.str eid)) = Except.ok eid from rfl]
  dsimp only
  rw [show dgetD (thresholdsFor (determineEquipmentType eid)) "critical_temp" 999 = C from by
      simp [dgetD, hC],
    show dgetD (thresholdsFor (determineEquipmentType eid)) "high_temp" 999 = H from by
      simp [dgetD, hH]]
  refine ⟨?_, ?_, ?_⟩
  · intro hvC
    rw [if_pos (show truthy (Value.num v) = true from by
        simp only [truthy, decide_eq_true_eq]
        intro h0
        rw [h0] at hvC
        linarith)]
    rw [if_pos (show v > C from hvC), hC]
    dsimp only [sortBySeverity, insertBySeverity]
  · intro hvH hvC
    rw [if_pos (show truthy (Value.num v) = true from by
        simp only [truthy, decide_eq_true_eq]
        intro h0
        rw [h0] at hvH
        linarith)]
    rw [if_neg (show ¬ v > C from by linarith), if_pos (show v > H from hvH), hH]
    dsimp only [sortBySeverity, insertBySeverity]
  · intro hvH
    by_cases hv0 : v = 0
    · rw [if_neg (show ¬ (truthy (Value.num v) = true) from by
          simp only [truthy, decide_eq_true_eq, hv0]
          simp)]
      rfl
    · rw [if_pos (show truthy (Value.num v) = true from by
          simp only [truthy, decide_eq_true_eq]
          exact hv0)]
      rw [if_neg (show ¬ v > C from by linarith), if_neg (show ¬ v > H from by linarith)]
      rfl

/-- C1 witness: the boiler reading {equipmentId: "boiler-3", location_id: "4",
temperature: 205} against thresholds {critical 200, high 180} yields one
CRITICAL HIGH_TEMPERATURE candidate with value 205 and threshold 200. -/
theorem c1_threshold_evaluator_witness :
    ∃ a, process_equipment_alerts
        [("equipmentId", Value.str "boiler-3"), ("location_id", Value.str "4"),
         ("temperature", Value.num 205)] "t0" = some a ∧
      a.severity = "CRITICAL" ∧ a.type_ = "HIGH_TEMPERATURE" ∧ a.value = 205 ∧
      a.threshold = 200 ∧ a.source = "equipment_monitoring" := by
  have h := (c1_threshold_evaluator
      [("equipmentId", Value.str "boiler-3"), ("location_id", Value.str "4"),
       ("temperature", Value.num 205)] "t0" "boiler-3" (Value.str "4") 200 180 205
      rfl (by decide) rfl (by decide) (by decide) (by decide) (by norm_num) rfl).1
    (by norm_num)
  exact ⟨_, h, rfl, rfl, rfl, rfl, rfl⟩

/-- C7: a metrics row whose equipment id resolves to a category with no
thresholds table ("unknown" or "geo": `thresholdsFor` gives the empty table)
produces no alert candidate for any temperature value — the comparison
defaults make an absent threshold effectively infinite (999), and the alert
constructor's direct `thresholds[...]` access raises a `KeyError` that the
evaluator's catch-all turns into `None`. -/
theorem c7_missing_thresholds_no_alert (row : Dict) (nowIso : String)
    (h : ∀ eid, dget row "equipmentId" = some (Value.str eid) →
      thresholdsFor (determineEquipmentType eid) = []) :
    process_equipment_alerts row nowIso = none := by
  unfold process_equipment_alerts process_equipment_alertsExc
  dsimp only
  by_cases hg : (!(truthyOpt (dget row "equipmentId") &&
      truthyOpt (dget row "location_id"))) = true
  · rw [if_pos hg]
  · rw [if_neg hg]
    cases he : dget row "equipmentId" with
    | none =>
      exfalso
      apply hg
      rw [he]
      rfl
    | some v =>
      cases v with
      | num q =>
        rfl
      | str eid =>
        rw [show valueAsStringE (some (Value.str eid)) = Except.ok eid from rfl]
        dsimp only
        rw [h eid he]
        cases hT : extractTemp row with
        | str s => rfl
        | num q =>
          dsimp only
          by_cases hq0 : truthy (Value.num q) = true
          · rw [if_pos hq0]
            rw [show dgetD ([] : List (String × ℚ)) "critical_temp" 999 = 999 from rfl,
              show dgetD ([] : List (String × ℚ)) "high_temp" 999 = 999 from rfl]
            by_cases h9 : q > 999
            · rw [if_pos h9]
              rfl
            · rw [if_neg h9, if_neg h9]
              rfl
          · rw [if_neg hq0]
            rfl

/-- C7 witness: a geothermal id with a huge temperature still yields no
candidate. -/
theorem c7_missing_thresholds_no_alert_witness :
    process_equipment_alerts
      [("equipmentId", Value.str "geo-1"), ("location_id", Value.str "4"),
       ("temperature", Value.num 5000)] "t0" = none := by
  apply c7_missing_thresholds_no_alert
  intro eid heid
  have : Value.str "geo-1" = Value.str eid := by
    have h0 : dget [("equipmentId", Value.str "geo-1"), ("location_id", Value.str "4"),
        ("temperature", Value.num 5000)] "equipmentId" = some (Value.str "geo-1") := rfl
    rw [h0] at heid
    exact Option.some.inj heid
  obtain rfl : "geo-1" = eid := Value.str.inj this
  decide

/-- When the cooldown check does not suppress, `send_alert_notification` stores
`now` and dispatches to the configured channels. -/
theorem send_alert_not_suppressed (st : List (String × ℚ)) (a : Alert) (cfg : AlertCfg)
    (env : EnvVars) (net : NetOracle) (now : ℚ)
    (hs : (match dget st (alertKey a) with
           | some t0 => decide (now - t0 < ALERT_COOLDOWN_MINUTES * 60)
           | none => false) = false) :
    (send_alert_notification st a cfg env net now).times = setTime st (alertKey a) now ∧
    (send_alert_notification st a cfg env net now).resendReport =
      send_resend_notification cfg env net.resend ∧
    (send_alert_notification st a cfg env net now).slackReport =
      (if truthyStr (pyOrStr cfg.slack_webhook_url env.SLACK_WEBHOOK_URL) = true then
        some (send_slack_notification a
          ((pyOrStr cfg.slack_webhook_url env.SLACK_WEBHOOK_URL).getD "") net.slack)
      else none) ∧
    (send_alert_notification st a cfg env net now).discordReport =
      (if truthyStr (pyOrStr cfg.discord_webhook_url env.DISCORD_WEBHOOK_URL) = true then
        some (send_discord_notification a
          ((pyOrStr cfg.discord_webhook_url env.DISCORD_WEBHOOK_URL).getD "") net.discord)
      else none) ∧
    (send_alert_notification st a cfg env net now).sent =
      ((send_alert_notification st a cfg env net now).resendReport.sent ||
       optSent (send_alert_notification st a cfg env net now).slackReport ||
       optSent (send_alert_notification st a cfg env net now).discordReport) := by
  unfold send_alert_notification
  dsimp only
  rw [hs]
  exact ⟨rfl, rfl, rfl, rfl, rfl⟩

/-- When the cooldown check suppresses, `send_alert_notification` returns
`False`, leaves the state untouched and attempts no channel. -/
theorem send_alert_suppressed (st : List (String × ℚ)) (a : Alert) (cfg : AlertCfg)
    (env : EnvVars) (net : NetOracle) (now : ℚ)
    (hs : (match dget st (alertKey a) with
           | some t0 => decide (now - t0 < ALERT_COOLDOWN_MINUTES * 60)
           | none => false) = true) :
    (send_alert_notification st a cfg env net now).sent = false ∧
    (send_alert_notification st a cfg env net now).times = st ∧
    (send_alert_notification st a cfg env net now).resendReport = emptyReport ∧
    (send_alert_notification st a cfg env net now).slackReport = none ∧
    (send_alert_notification st a cfg env net now).discordReport = none := by
  unfold send_alert_notification
  dsimp only
  rw [hs]
  exact ⟨rfl, rfl, rfl, rfl, rfl⟩

/-- C2: for two candidates with the same subject and kind arriving at `t0` and
then `t1` against a fresh cooldown state: the first is allowed and the
timestamp `t0` is stored regardless of the channel outcomes (so it is updated
even when every channel fails); if `t1 - t0 < 300` seconds (the 5-minute
window) the second returns `False`, makes no attempt, and the stored timestamp
remains `t0`; if `t1 - t0 ≥ 300` the second also dispatches and the stored
timestamp becomes `t1`. -/
theorem c2_cooldown_gate (times : List (String × ℚ)) (alert : Alert) (cfg : AlertCfg)
    (env : EnvVars) (net1 net2 : NetOracle) (t0 t1 : ℚ)
    (hfresh : dget times (alertKey alert) = none) :
    ALERT_COOLDOWN_MINUTES * 60 = 300 ∧
    dget (send_alert_notification times alert cfg env net1 t0).times (alertKey alert) =
      some t0 ∧
    (t1 - t0 < 300 →
      (send_alert_notification (send_alert_notification times alert cfg env net1 t0).times
        alert cfg env net2 t1).sent = false ∧
      (send_alert_notification (send_alert_notification times alert cfg env net1 t0).times
        alert cfg env net2 t1).times =
        (send_alert_notification times alert cfg env net1 t0).times ∧
      (send_alert_notification (send_alert_notification times alert cfg env net1 t0).times
        alert cfg env net2 t1).resendReport.httpAttempts = 0) ∧
    (300 ≤ t1 - t0 →
      dget (send_alert_notification (send_alert_notification times alert cfg env net1 t0).times
        alert cfg env net2 t1).times (alertKey alert) = some t1 ∧
      (send_alert_notification (send_alert_notification times alert cfg env net1 t0).times
        alert cfg env net2 t1).resendReport = send_resend_notification cfg env net2.resend) := by
  have hcool : ALERT_COOLDOWN_MINUTES * 60 = 300 := by norm_num [ALERT_COOLDOWN_MINUTES]
  have h1 := send_alert_not_suppressed times alert cfg env net1 t0 (by rw [hfresh])
  have ht1 : dget (send_alert_notification times alert cfg env net1 t0).times
      (alertKey alert) = some t0 := by
    rw [h1.1]
    exact dget_setTime_self times (alertKey alert) t0
  refine ⟨hcool, ht1, ?_, ?_⟩
  · intro hlt
    have hs2 : (match dget (send_alert_notification times alert cfg env net1 t0).times
          (alertKey alert) with
        | some t0 => decide (t1 - t0 < ALERT_COOLDOWN_MINUTES * 60)
        | none => false) = true := by
      rw [ht1]
      dsimp only
      simp only [decide_eq_true_eq]
      rw [hcool]
      exact hlt
    have h2 := send_alert_suppressed _ alert cfg env net2 t1 hs2
    refine ⟨h2.1, h2.2.1, ?_⟩
    rw [h2.2.2.1]
    rfl
  · intro hge
    have hs2 : (match dget (send_alert_notification times alert cfg env net1 t0).times
          (alertKey alert) with
        | some t0 => decide (t1 - t0 < ALERT_COOLDOWN_MINUTES * 60)
        | none => false) = false := by
      rw [ht1]
      dsimp only
      simp only [decide_eq_false_iff_not]
      rw [hcool]
      linarith
    have h2 := send_alert_not_suppressed _ alert cfg env net2 t1 hs2
    refine ⟨?_, h2.2.1⟩
    rw [h2.1]
    exact dget_setTime_self _ _ _

/-- A concrete CRITICAL candidate used by witnesses. -/
def c2Alert : Alert :=
  { severity := "CRITICAL", type_ := "HIGH_TEMPERATURE", message := "m", value := 205,
    threshold := 200, equipment_id := some (Value.str "boiler-3"),
    location_id := some (Value.str "4"), equipment_type := some "boiler",
    timestamp := "t0", source := "equipment_monitoring" }

/-- A network oracle on which every channel attempt raises. -/
def failNet : NetOracle :=
  { resend := fun _ => ResendOutcome.exc, slack := WebhookOutcome.exc,
    discord := WebhookOutcome.exc }

/-- C2 witness: with every channel failing, the first dispatch still stores its
timestamp, and a second one 100 s later is suppressed. -/
theorem c2_cooldown_gate_witness :
    dget (send_alert_notification [] c2Alert {} {} failNet 0).times (alertKey c2Alert) =
      some 0 ∧
    (send_alert_notification (send_alert_notification [] c2Alert {} {} failNet 0).times
      c2Alert {} {} failNet 100).sent = false := by
  have h := c2_cooldown_gate [] c2Alert {} {} failNet failNet 0 100 rfl
  exact ⟨h.2.1, (h.2.2.1 (by norm_num)).1⟩

/-- C9: for a candidate not suppressed by cooldown, the dispatch return value
is exactly the OR of the attempted channels' results; a channel missing its
configuration is skipped with no HTTP attempt (resend reports zero attempts
without a recipient, the webhook channels are not called at all without a
URL), and such absence does not prevent overall success when another
configured channel succeeds. -/
theorem c9_dispatch_aggregation (times : List (String × ℚ)) (alert : Alert) (cfg : AlertCfg)
    (env : EnvVars) (net : NetOracle) (now : ℚ)
    (hfresh : dget times (alertKey alert) = none) :
    (send_alert_notification times alert cfg env net now).sent =
      ((send_alert_notification times alert cfg env net now).resendReport.sent ||
       optSent (send_alert_notification times alert cfg env net now).slackReport ||
       optSent (send_alert_notification times alert cfg env net now).discordReport) ∧
    (truthyStr (pyOrStr cfg.recipient_email env.DEFAULT_RECIPIENT) = false →
      (send_alert_notification times alert cfg env net now).resendReport.httpAttempts = 0 ∧
      (send_alert_notification times alert cfg env net now).resendReport.sent = false) ∧
    (truthyStr (pyOrStr cfg.slack_webhook_url env.SLACK_WEBHOOK_URL) = false →
      (send_alert_notification times alert cfg env net now).slackReport = none) ∧
    (truthyStr (pyOrStr cfg.slack_webhook_url env.SLACK_WEBHOOK_URL) = true →
      (send_alert_notification times alert cfg env net now).slackReport =
        some (send_slack_notification alert
          ((pyOrStr cfg.slack_webhook_url env.SLACK_WEBHOOK_URL).getD "") net.slack)) ∧
    (truthyStr (pyOrStr cfg.discord_webhook_url env.DISCORD_WEBHOOK_URL) = false →
      (send_alert_notification times alert cfg env net now).discordReport = none) ∧
    (truthyStr (pyOrStr cfg.recipient_email env.DEFAULT_RECIPIENT) = false →
      optSent (send_alert_notification times alert cfg env net now).slackReport = true →
      (send_alert_notification times alert cfg env net now).sent = true) := by
  have h := send_alert_not_suppressed times alert cfg env net now (by rw [hfresh])
  refine ⟨h.2.2.2.2, ?_, ?_, ?_, ?_, ?_⟩
  · intro hrec
    have hre : send_resend_notification cfg env net.resend = emptyReport := by
      unfold send_resend_notification
      dsimp only
      rw [hrec]
      rfl
    rw [h.2.1, hre]
    exact ⟨rfl, rfl⟩
  · intro hs
    rw [h.2.2.1, hs]
    rfl
  · intro hs
    rw [h.2.2.1, if_pos hs]
  · intro hs
    rw [h.2.2.2.1, hs]
    rfl
  · intro hrec hslack
    rw [h.2.2.2.2, hslack]
    simp

/-- A network oracle where only the Slack webhook succeeds. -/
def slackOnlyNet : NetOracle :=
  { resend := fun _ => ResendOutcome.exc, slack := WebhookOutcome.status 200,
    discord := WebhookOutcome.exc }

/-- C9 witness: with no recipient configured but a working Slack webhook, the
dispatch reports overall success while the BMS-API channel made no attempt. -/
theorem c9_dispatch_aggregation_witness :
    (send_alert_notification [] c2Alert { slack_webhook_url := some "https://hooks.example/x" }
      {} slackOnlyNet 0).sent = true ∧
    (send_alert_notification [] c2Alert { slack_webhook_url := some "https://hooks.example/x" }
      {} slackOnlyNet 0).resendReport.httpAttempts = 0 := by
  have h := c9_dispatch_aggregation [] c2Alert
    { slack_webhook_url := some "https://hooks.example/x" } {} slackOnlyNet 0 rfl
  have hslack : optSent (send_alert_notification [] c2Alert
      { slack_webhook_url := some "https://hooks.example/x" } {} slackOnlyNet 0).slackReport =
      true := by
    rw [h.2.2.2.1 (by decide)]
    rfl
  exact ⟨h.2.2.2.2.2 (by decide) hslack, (h.2.1 (by decide)).1⟩

/-- Config with only a recipient set, used by the C8 theorems. -/
def c8Cfg : AlertCfg := { recipient_email := some "ops@example.com" }

/-- Oracle whose first attempt gets a 500 response and whose second succeeds. -/
def c8Oracle : ℕ → ResendOutcome :=
  fun i => if i = 0 then ResendOutcome.httpError 500 else ResendOutcome.ok

/-- C8 counterexample: after a non-2xx response the BMS-API channel retries
immediately — two attempts happen with an empty sleep list, while the claim
asserts an exponential-backoff sleep between attempts.  (The
`time.sleep(retry_backoff ** attempt)` call sits only in the `except` branch of
the source; a non-200 response takes the `else` branch, which has no sleep.) -/
theorem c8_counterexample :
    (send_resend_notification c8Cfg {} c8Oracle).httpAttempts = 2 ∧
    (send_resend_notification c8Cfg {} c8Oracle).sent = true ∧
    (send_resend_notification c8Cfg {} c8Oracle).sleeps = [] := by
  refine ⟨rfl, rfl, rfl⟩

/-- C8 (amended): the BMS-API channel makes at most 3 attempts (exactly 3 when
it fails), sleeping `retry_backoff ** attempt` (2^attempt seconds) after an
attempt that raised an exception when another attempt remains — and not after
a non-2xx response, which is retried immediately; the Slack and Discord
channels make exactly one HTTP attempt. -/
theorem c8_retry_behavior (cfg : AlertCfg) (env : EnvVars) (oracle : ℕ → ResendOutcome)
    (alert : Alert) (url : String) (w1 w2 : WebhookOutcome)
    (hrec : truthyStr (pyOrStr cfg.recipient_email env.DEFAULT_RECIPIENT) = true) :
    (send_resend_notification cfg env oracle).httpAttempts ≤ RETRY_ATTEMPTS ∧
    ((send_resend_notification cfg env oracle).sent = false →
      (send_resend_notification cfg env oracle).httpAttempts = RETRY_ATTEMPTS) ∧
    (send_resend_notification cfg env oracle).sleeps =
      ((List.range ((send_resend_notification cfg env oracle).httpAttempts - 1)).filter
        (fun i => decide (oracle i = ResendOutcome.exc))).map
        (fun i => RETRY_BACKOFF ^ i) ∧
    (send_slack_notification alert url w1).httpAttempts = 1 ∧
    (send_discord_notification alert url w2).httpAttempts = 1 := by
  have hun : send_resend_notification cfg env oracle = resendTry oracle 0 RETRY_ATTEMPTS := by
    unfold send_resend_notification
    dsimp only
    rw [hrec]
    rfl
  refine ⟨?_, ?_, ?_, rfl, rfl⟩ <;>
    rw [hun, show RETRY_ATTEMPTS = Nat.succ (Nat.succ (Nat.succ 0)) from rfl] <;>
    rcases h0 : oracle 0 with _ | c0 | _ <;> rcases h1 : oracle 1 with _ | c1 | _ <;>
      rcases h2 : oracle 2 with _ | c2 | _ <;>
    simp [resendTry, h0, h1, h2, RETRY_ATTEMPTS, emptyReport] <;>
    first
      | (intro a ha; interval_cases a <;> simp [h0, h1])
      | (rw [show List.range 2 = [0, 1] from rfl]; simp [h0, h1])
      | (rw [show List.range 1 = [0] from rfl]; simp [h0, h1])

/-- C8 witness: with a recipient configured and every attempt raising, the
attempt count stays within the fixed bound of 3. -/
theorem c8_retry_behavior_witness :
    (send_resend_notification c8Cfg {} (fun _ => ResendOutcome.exc)).httpAttempts ≤
      RETRY_ATTEMPTS :=
  (c8_retry_behavior c8Cfg {} (fun _ => ResendOutcome.exc) c2Alert "u"
    WebhookOutcome.exc WebhookOutcome.exc (by decide)).1

/-- C10: the alert engine's `process_writes` never raises: the body inside its
top-level `try` always returns normally; every exception inside a per-reading
evaluator is caught at that evaluator's scope, yielding no alert; and a
reading that yields no alert leaves the rest of the batch to be processed
exactly as it would have been on its own. -/
theorem c10_entry_point_total (batches : List TableBatch) (cfg : AlertCfg) (env : EnvVars)
    (net : ℕ → NetOracle) (now : ℚ) (nowIso : String) (st : List (String × ℚ)) :
    (∃ s, process_writes_try batches cfg env net now nowIso st = Except.ok s) ∧
    (∀ row e, process_equipment_alertsExc row nowIso = Except.error e →
      process_equipment_alerts row nowIso = none) ∧
    (∀ row e, process_health_alertsExc row nowIso = Except.error e →
      process_health_alerts row nowIso = none) ∧
    (∀ row e, process_energy_alertsExc row nowIso = Except.error e →
      process_energy_alerts row nowIso = none) ∧
    (∀ (eval : Dict → Option Alert) (row : Dict) (rest : List Dict) (s : EngineState),
      eval row = none →
      engineProcessRows eval cfg env net now (row :: rest) s =
        engineProcessRows eval cfg env net now rest s) := by
  refine ⟨⟨_, rfl⟩, ?_, ?_, ?_, ?_⟩
  · intro row e he
    unfold process_equipment_alerts
    rw [he]
  · intro row e he
    unfold process_health_alerts
    rw [he]
  · intro row e he
    unfold process_energy_alerts
    rw [he]
  · intro eval row rest s hrow
    show engineProcessRows eval cfg env net now rest (engineRowStep eval cfg env net now s row) =
      engineProcessRows eval cfg env net now rest s
    rw [show engineRowStep eval cfg env net now s row = s from by
      unfold engineRowStep
      rw [hrow]]

/-- A malformed metrics row: its `equipmentId` is numeric and truthy, so the
evaluator's `equipment_id.lower()` raises `AttributeError`. -/
def c10BadRow : Dict := [("equipmentId", Value.num 7), ("location_id", Value.str "1")]

/-- C10 witness: the entry point returns normally on a batch holding a
malformed row, and that row's evaluation exception is contained to `None`. -/
theorem c10_entry_point_total_witness :
    (∃ s, process_writes_try [{ table_name := "metrics", rows := [c10BadRow] }] {} {}
      (fun _ => failNet) 0 "t0" [] = Except.ok s) ∧
    process_equipment_alerts c10BadRow "t0" = none := by
  have h := c10_entry_point_total [{ table_name := "metrics", rows := [c10BadRow] }] {} {}
    (fun _ => failNet) 0 "t0" []
  exact ⟨h.1, h.2.1 c10BadRow "AttributeError" rfl⟩
